import Mathlib

/-!
Shallow embedding of `src/main.py` (GymmyBotAPI): a FastAPI service over a
SQLite store with tables `users`, `exercises`, `sets`, and endpoints to
create users, create/list/get exercises, and create/list/delete sets, all
scoped to the authenticated user resolved by `get_current_user`.

Each table is modelled as a list of rows in insertion order (SQLite scan
order for these unordered queries); `query(...).first()` is `List.find?`,
`.all()` is `List.filter`, `ORDER BY date DESC` is a sort by date
descending (SQL leaves the tie order unspecified; a concrete stable sort
realizes one allowed order), and auto-increment primary keys follow
SQLite's max-rowid-plus-one rule.  Handlers that mutate return the HTTP
response together with the store after the request; a raised
`HTTPException` or an uncaught Python exception leaves the store unchanged.
-/

namespace GymmyBot

/-- Row of the `users` table (`UserDB` in `src/main.py`). -/
structure UserDB where
  id : Int
  telegram_id : Int
  full_name : Option String
  username : Option String
deriving Repr, DecidableEq

/-- Row of the `exercises` table (`ExerciseDB` in `src/main.py`). -/
structure ExerciseDB where
  id : Int
  user_id : Int
  name : String
  description : Option String
deriving Repr, DecidableEq

/-- Row of the `sets` table (`SetDB` in `src/main.py`).  `weight` is a SQL
`Float` in the source; no handler computes with it, so it is carried as an
exact rational.  `date` is a calendar date, represented by its ordinal so
that only its total order matters. -/
structure SetDB where
  id : Int
  user_id : Int
  exercise_id : Int
  weight : Rat
  reps : Int
  set_number : Int
  date : Int
deriving Repr, DecidableEq

/-- The relational store (`workouts.db`): one list of rows per table. -/
structure DB where
  users : List UserDB
  exercises : List ExerciseDB
  sets : List SetDB
deriving Repr, DecidableEq

/-- Pydantic schema `UserBase` (also `UserCreate`); note it has no `id`
field, and `create_user` answers through `response_model=UserBase`. -/
structure UserBase where
  telegram_id : Int
  full_name : Option String
  username : Option String
deriving Repr, DecidableEq

/-- Pydantic schema `UserCreate` (inherits `UserBase` unchanged). -/
abbrev UserCreate := UserBase

/-- Pydantic schema `ExerciseCreate` (`ExerciseBase` with no extra fields). -/
structure ExerciseCreate where
  name : String
  description : Option String
deriving Repr, DecidableEq

/-- Pydantic schema `SetCreate` (`SetBase` with no extra fields). -/
structure SetCreate where
  exercise_id : Int
  weight : Rat
  reps : Int
  set_number : Int
  date : Int
deriving Repr, DecidableEq

/-- Failure outcome of a handler: either FastAPI's `HTTPException` with a
status code and detail, or an uncaught Python `ValueError` (raised by
`int(token)` on a non-numeric token), which surfaces as a 500 internal
server error rather than a handled HTTP error. -/
inductive PyError
  | httpException (status_code : Nat) (detail : String)
  | valueError
deriving Repr, DecidableEq

instance {e a : Type} [DecidableEq e] [DecidableEq a] :
    DecidableEq (Except e a)
  | .error x, .error y => decidable_of_iff (x = y) (by simp)
  | .error _, .ok _ => isFalse fun h => Except.noConfusion h
  | .ok _, .error _ => isFalse fun h => Except.noConfusion h
  | .ok x, .ok y => decidable_of_iff (x = y) (by simp)

/-- Largest id present (0 when the table is empty). -/
def maxId (ids : List Int) : Int := ids.foldr max 0

/-- SQLite's auto-increment primary key: one more than the largest rowid. -/
def freshId (ids : List Int) : Int := maxId ids + 1

/-- Value of a nonempty all-digit string, else `none`. -/
def digitsVal (cs : List Char) : Option Nat :=
  if cs.isEmpty then none
  else if cs.all Char.isDigit then
    some (cs.foldl (fun a c => a * 10 + (c.toNat - 48)) 0)
  else none

/-- Python `int(s)` on a string: surrounding whitespace is stripped, then an
optional sign followed by decimal digits; `none` where Python raises
`ValueError`.  (Digit-group underscores are not modelled; no claim depends
on them.) -/
def pyInt (s : String) : Option Int :=
  let t := ((s.toList.dropWhile Char.isWhitespace).reverse.dropWhile
      Char.isWhitespace).reverse
  match t with
  | '+' :: ds => (digitsVal ds).map fun n => (n : Int)
  | '-' :: ds => (digitsVal ds).map fun n => -(n : Int)
  | ds => (digitsVal ds).map fun n => (n : Int)

/-- The 401 `HTTPException` raised by `get_current_user`. -/
def authError : PyError :=
  .httpException 401 "Invalid authentication credentials"

/-- `get_current_user` from `src/main.py`: the bearer token is interpreted
as a `telegram_id` via Python `int(token)` (a non-numeric token raises
`ValueError` before any query), and the first user with that `telegram_id`
is the caller; 401 when no user matches. -/
def get_current_user (token : String) (db : DB) : Except PyError UserDB :=
  match pyInt token with
  | none => .error .valueError
  | some t =>
    match db.users.find? (fun u => u.telegram_id == t) with
    | none => .error authError
    | some u => .ok u

/-- Serialization through `response_model=UserBase`: FastAPI keeps exactly
the fields declared on `UserBase`, so the row's `id` is dropped from the
response. -/
def toUserBase (u : UserDB) : UserBase :=
  { telegram_id := u.telegram_id, full_name := u.full_name,
    username := u.username }

/-- `POST /users/` (`create_user`): 400 "User already exists" when a row
with the same `telegram_id` exists; otherwise inserts a row with a fresh id
and answers it through `response_model=UserBase`. -/
def create_user (user : UserCreate) (db : DB) :
    Except PyError UserBase × DB :=
  match db.users.find? (fun u => u.telegram_id == user.telegram_id) with
  | some _ => (.error (.httpException 400 "User already exists"), db)
  | none =>
    let new_user : UserDB :=
      { id := freshId (db.users.map UserDB.id)
        telegram_id := user.telegram_id
        full_name := user.full_name
        username := user.username }
    (.ok (toUserBase new_user), { db with users := db.users ++ [new_user] })

/-- `POST /exercises/` (`create_exercise`): unconditionally inserts a row
with a fresh id and `user_id` set from the resolved caller. -/
def create_exercise (exercise : ExerciseCreate) (current_user : Int)
    (db : DB) : Except PyError ExerciseDB × DB :=
  let db_exercise : ExerciseDB :=
    { id := freshId (db.exercises.map ExerciseDB.id)
      user_id := current_user
      name := exercise.name
      description := exercise.description }
  (.ok db_exercise, { db with exercises := db.exercises ++ [db_exercise] })

/-- `GET /exercises/` (`get_exercises`): all exercises whose `user_id` is
the caller. -/
def get_exercises (current_user : Int) (db : DB) : List ExerciseDB :=
  db.exercises.filter (fun e => e.user_id == current_user)

/-- `GET /exercises/{exercise_id}` (`get_exercise`): first exercise with
that id and the caller's `user_id`; 404 "Exercise not found" otherwise. -/
def get_exercise (exercise_id : Int) (current_user : Int) (db : DB) :
    Except PyError ExerciseDB :=
  match db.exercises.find?
      (fun e => e.id == exercise_id && e.user_id == current_user) with
  | none => .error (.httpException 404 "Exercise not found")
  | some e => .ok e

/-- `POST /sets/` (`create_set`): 404 "Exercise not found" unless an
exercise with `set_data.exercise_id` owned by the caller exists; on success
inserts a set with a fresh id and `user_id` set from the caller. -/
def create_set (set_data : SetCreate) (current_user : Int) (db : DB) :
    Except PyError SetDB × DB :=
  match db.exercises.find?
      (fun e => e.id == set_data.exercise_id && e.user_id == current_user) with
  | none => (.error (.httpException 404 "Exercise not found"), db)
  | some _ =>
    let db_set : SetDB :=
      { id := freshId (db.sets.map SetDB.id)
        user_id := current_user
        exercise_id := set_data.exercise_id
        weight := set_data.weight
        reps := set_data.reps
        set_number := set_data.set_number
        date := set_data.date }
    (.ok db_set, { db with sets := db.sets ++ [db_set] })

/-- Python truthiness of `Optional[int]`: `None` and `0` are falsy, so the
source's `if exercise_id:` skips the filter for both. -/
def intOptTruthy : Option Int → Bool
  | none => false
  | some n => n != 0

/-- The `WHERE` part of `get_sets`: the caller's sets, further filtered by
`exercise_id` only when that parameter is truthy. -/
def setsQuery (exercise_id : Option Int) (current_user : Int) (db : DB) :
    List SetDB :=
  let query := db.sets.filter (fun s => s.user_id == current_user)
  if intOptTruthy exercise_id then
    query.filter (fun s => s.exercise_id == exercise_id.getD 0)
  else query

/-- `ORDER BY sets.date DESC` as a relation: later dates first. -/
def byDateDesc (a b : SetDB) : Prop := b.date ≤ a.date

instance : DecidableRel byDateDesc := fun a b =>
  inferInstanceAs (Decidable (b.date ≤ a.date))

instance : IsTotal SetDB byDateDesc := ⟨fun a b => le_total b.date a.date⟩

instance : IsTrans SetDB byDateDesc :=
  ⟨fun _ _ _ hab hbc => le_trans hbc hab⟩

/-- `GET /sets/` (`get_sets`): the caller's sets, optionally filtered by a
truthy `exercise_id`, ordered by date descending. -/
def get_sets (exercise_id : Option Int) (current_user : Int) (db : DB) :
    List SetDB :=
  List.insertionSort byDateDesc (setsQuery exercise_id current_user db)

/-- The spec's description of the rows List Sets should return: owned by
the caller and, when a filter is supplied, carrying that `exercise_id`. -/
def specSetsFilter (q : Option Int) (cu : Int) (s : SetDB) : Bool :=
  s.user_id == cu &&
    (match q with | none => true | some k => s.exercise_id == k)

/-- `DELETE /sets/{set_id}` (`delete_set`): finds the first set with that id
owned by the caller; 404 "Set not found" when there is none, otherwise
deletes that row and answers 204 with no body. -/
def delete_set (set_id : Int) (current_user : Int) (db : DB) :
    Except PyError Unit × DB :=
  match db.sets.find?
      (fun s => s.id == set_id && s.user_id == current_user) with
  | none => (.error (.httpException 404 "Set not found"), db)
  | some s => (.ok (), { db with sets := db.sets.erase s })

/-- The store as it would be if user `b` owned no exercises and no sets. -/
def purgeUser (b : Int) (db : DB) : DB :=
  { db with
    exercises := db.exercises.filter (fun e => !(e.user_id == b))
    sets := db.sets.filter (fun s => !(s.user_id == b)) }

/-! Concrete rows and stores used by witnesses and counterexamples. -/

/-- A first user. -/
def uA : UserDB :=
  { id := 1, telegram_id := 100, full_name := some "Alice", username := none }

/-- A second, distinct user. -/
def uB : UserDB :=
  { id := 2, telegram_id := 200, full_name := none, username := some "bob" }

/-- An exercise owned by `uA`. -/
def exA : ExerciseDB :=
  { id := 1, user_id := 1, name := "Bench Press", description := none }

/-- An exercise owned by `uB`. -/
def exB : ExerciseDB :=
  { id := 2, user_id := 2, name := "Squat", description := none }

/-- A set owned by `uA`. -/
def sA : SetDB :=
  { id := 1, user_id := 1, exercise_id := 1, weight := 80, reps := 5,
    set_number := 1, date := 10 }

/-- A set owned by `uB`. -/
def sB : SetDB :=
  { id := 2, user_id := 2, exercise_id := 2, weight := 100, reps := 3,
    set_number := 1, date := 11 }

/-- A store with two users, one exercise and one set each. -/
def wdb : DB := { users := [uA, uB], exercises := [exA, exB], sets := [sA, sB] }

/-- The empty store. -/
def dbEmpty : DB := { users := [], exercises := [], sets := [] }

/-- A set owned by user 1 under exercise 1, with id and date `n`. -/
def mkSet (n : Int) : SetDB :=
  { id := n, user_id := 1, exercise_id := 1, weight := 50, reps := 5,
    set_number := 1, date := n }

/-- A store where user 1 owns eleven sets. -/
def c5db : DB :=
  { users := [uA], exercises := [exA],
    sets := (List.range 11).map (fun n => mkSet ((n : Int) + 1)) }

/-- A set-creation payload targeting exercise 1. -/
def screq : SetCreate :=
  { exercise_id := 1, weight := 80, reps := 5, set_number := 1, date := 10 }

/-- A user-creation payload with an unused `telegram_id`. -/
def ureq : UserCreate :=
  { telegram_id := 300, full_name := some "Carol", username := none }

/-- A user-creation payload duplicating `uA`'s `telegram_id`. -/
def ureqDup : UserCreate :=
  { telegram_id := 100, full_name := none, username := none }

/-! General lemmas about the embedding's building blocks. -/

/-- Every id in a table is at most `maxId` of the table. -/
theorem le_maxId {i : Int} {ids : List Int} (h : i ∈ ids) : i ≤ maxId ids := by
  induction ids with
  | nil => cases h
  | cons a t ih =>
    simp only [maxId, List.foldr_cons] at *
    rcases List.mem_cons.1 h with rfl | h2
    · exact le_max_left _ _
    · exact le_trans (ih h2) (le_max_right _ _)

/-- A fresh id is strictly larger than every id already present. -/
theorem lt_freshId {i : Int} {ids : List Int} (h : i ∈ ids) : i < freshId ids :=
  lt_of_le_of_lt (le_maxId h) (lt_add_one _)

/-- `find?` is unchanged by first filtering with a predicate implied by the
searched-for one. -/
theorem find?_filter_of_imp {α : Type} (p q : α → Bool) (l : List α)
    (h : ∀ a, p a = true → q a = true) :
    (l.filter q).find? p = l.find? p := by
  induction l with
  | nil => rfl
  | cons a t ih =>
    by_cases hp : p a = true
    · rw [List.filter_cons, if_pos (h a hp), List.find?_cons_of_pos _ hp,
        List.find?_cons_of_pos _ hp]
    · by_cases hqa : q a = true
      · rw [List.filter_cons, if_pos hqa, List.find?_cons_of_neg _ hp,
          List.find?_cons_of_neg _ hp, ih]
      · rw [List.filter_cons, if_neg hqa, ih, List.find?_cons_of_neg _ hp]

/-- `filter` is unchanged by first filtering with a predicate implied by the
kept one. -/
theorem filter_filter_of_imp {α : Type} (p q : α → Bool) (l : List α)
    (h : ∀ a, p a = true → q a = true) :
    (l.filter q).filter p = l.filter p := by
  rw [List.filter_filter]
  apply List.filter_congr
  intro a _
  cases hp : p a with
  | false => simp
  | true => simp [h a hp]

/-- After erasing a row from a table with no duplicate ids, no remaining row
carries the erased row's id. -/
theorem erase_ne_id {l : List SetDB} (hnd : (l.map SetDB.id).Nodup)
    {s : SetDB} (hs : s ∈ l) : ∀ t ∈ l.erase s, t.id ≠ s.id := by
  induction l with
  | nil => cases hs
  | cons a tl ih =>
    rw [List.map_cons, List.nodup_cons] at hnd
    obtain ⟨ha, hnd2⟩ := hnd
    by_cases has : a = s
    · subst has
      rw [List.erase_cons, if_pos (by simp)]
      intro t ht heq
      have hmem : t.id ∈ tl.map SetDB.id := List.mem_map_of_mem SetDB.id ht
      rw [heq] at hmem
      exact ha hmem
    · have hs2 : s ∈ tl := by
        rcases List.mem_cons.1 hs with h1 | h1
        · exact absurd h1.symm has
        · exact h1
      rw [List.erase_cons, if_neg (by simpa using has)]
      intro t ht
      rcases List.mem_cons.1 ht with rfl | ht2
      · intro heq
        have hmem : s.id ∈ tl.map SetDB.id := List.mem_map_of_mem SetDB.id hs2
        rw [← heq] at hmem
        exact ha hmem
      · exact ih hnd2 hs2 t ht2

/-- A row produced by `setsQuery` comes from the `sets` table and is owned
by the queried user. -/
theorem mem_setsQuery {t : SetDB} {q : Option Int} {cu : Int} {db : DB}
    (h : t ∈ setsQuery q cu db) : t ∈ db.sets ∧ t.user_id = cu := by
  rw [setsQuery] at h
  split at h
  · have h2 := List.mem_filter.1 h
    have h3 := List.mem_filter.1 h2.1
    exact ⟨h3.1, by simpa using h3.2⟩
  · have h3 := List.mem_filter.1 h
    exact ⟨h3.1, by simpa using h3.2⟩

/-- A row returned by `get_sets` comes from the `sets` table and is owned by
the caller. -/
theorem mem_get_sets {t : SetDB} {q : Option Int} {cu : Int} {db : DB}
    (h : t ∈ get_sets q cu db) : t ∈ db.sets ∧ t.user_id = cu := by
  rw [get_sets, List.mem_insertionSort] at h
  exact mem_setsQuery h

/-- Retrieving a freshly appended exercise by its id succeeds and returns
that very row. -/
theorem get_exercise_append_fresh (current_user : Int) (db : DB)
    (e : ExerciseDB) (hid : e.id = freshId (db.exercises.map ExerciseDB.id))
    (hu : e.user_id = current_user) :
    get_exercise e.id current_user
      { db with exercises := db.exercises ++ [e] } = .ok e := by
  have h1 : db.exercises.find?
      (fun x => x.id == e.id && x.user_id == current_user) = none := by
    rw [List.find?_eq_none]
    intro x hm h2
    rw [Bool.and_eq_true, beq_iff_eq, beq_iff_eq] at h2
    have h3 := lt_freshId (List.mem_map_of_mem ExerciseDB.id hm)
    rw [← hid] at h3
    omega
  have hsc : (db.exercises ++ [e]).find?
      (fun x => x.id == e.id && x.user_id == current_user) = some e := by
    rw [List.find?_append, h1]
    simp [hu]
  simp only [get_exercise]
  rw [hsc]

/-! Claim theorems. -/

/-- C3: every exercise creation by an authenticated caller succeeds, the
returned exercise's `user_id` equals the caller's identity, and a
subsequent `get_exercise` on the returned id by the same caller returns an
entity identical to the one returned by the create. -/
theorem create_exercise_then_get (current_user : Int)
    (exercise : ExerciseCreate) (db : DB) :
    ∃ e db2, create_exercise exercise current_user db = (.ok e, db2) ∧
      e.user_id = current_user ∧
      get_exercise e.id current_user db2 = .ok e := by
  refine ⟨_, _, rfl, rfl, ?_⟩
  exact get_exercise_append_fresh current_user db _ rfl rfl

/-- C5 (amended): `get_sets` has no `limit` parameter and never truncates:
the unfiltered listing returns a set for every row of the caller, however
many there are. -/
theorem get_sets_returns_all (current_user : Int) (db : DB) :
    (get_sets none current_user db).length =
      (db.sets.filter (fun s => s.user_id == current_user)).length := by
  rw [get_sets, List.length_insertionSort]
  rfl

/-- C5 (counterexample): with eleven persisted sets and no limit supplied,
`get_sets` returns all eleven, exceeding the claimed default cap of 10 (the
endpoint accepts no `limit` at all). -/
theorem get_sets_no_limit_cex :
    (get_sets none 1 c5db).length = 11 ∧
      ¬((get_sets none 1 c5db).length ≤ 10) := by
  decide

/-- C7 (amended): creating a user under a fresh external id succeeds, a row
with a newly assigned id is persisted, and the response carries the
`UserBase` fields of the new row — but, being serialized through
`response_model=UserBase`, not its assigned id. -/
theorem create_user_ok (user : UserCreate) (db : DB)
    (h : ∀ u ∈ db.users, u.telegram_id ≠ user.telegram_id) :
    ∃ nu : UserDB,
      create_user user db =
        (.ok (toUserBase nu), { db with users := db.users ++ [nu] }) ∧
      nu.telegram_id = user.telegram_id ∧
      nu.full_name = user.full_name ∧
      nu.username = user.username ∧
      (∀ u ∈ db.users, u.id ≠ nu.id) := by
  have hf : db.users.find? (fun u => u.telegram_id == user.telegram_id)
      = none := by
    rw [List.find?_eq_none]
    intro u hm h2
    rw [beq_iff_eq] at h2
    exact h u hm h2
  refine ⟨{ id := freshId (db.users.map UserDB.id),
            telegram_id := user.telegram_id,
            full_name := user.full_name,
            username := user.username }, ?_, rfl, rfl, rfl, ?_⟩
  · unfold create_user
    rw [hf]
  · show ∀ u ∈ db.users, u.id ≠ freshId (db.users.map UserDB.id)
    intro u hm heq
    have h3 := lt_freshId (List.mem_map_of_mem UserDB.id hm)
    omega

/-- C7 (witness): instantiation at a concrete payload and store. -/
theorem create_user_ok_witness :
    ∃ nu : UserDB,
      create_user ureq wdb =
        (.ok (toUserBase nu), { wdb with users := wdb.users ++ [nu] }) ∧
      nu.telegram_id = ureq.telegram_id ∧
      nu.full_name = ureq.full_name ∧
      nu.username = ureq.username ∧
      (∀ u ∈ wdb.users, u.id ≠ nu.id) :=
  create_user_ok ureq wdb (by decide)

/-- C7 (counterexample): the same payload created over two stores gets
different newly assigned ids (1 and 3) yet byte-identical responses, so the
response cannot include the newly assigned id — `response_model=UserBase`
strips it. -/
theorem create_user_response_cex :
    (create_user ureq dbEmpty).1 = (create_user ureq wdb).1 ∧
    (create_user ureq dbEmpty).2.users.map UserDB.id = [1] ∧
    (create_user ureq wdb).2.users.map UserDB.id = [1, 2, 3] := by
  decide

/-- C8: creating a user whose `telegram_id` is already registered fails
with 400 "User already exists" and leaves the store unchanged. -/
theorem create_user_conflict (user : UserCreate) (db : DB)
    (h : ∃ u ∈ db.users, u.telegram_id = user.telegram_id) :
    create_user user db =
      (.error (.httpException 400 "User already exists"), db) := by
  obtain ⟨u, hm, ht⟩ := h
  have hf : (db.users.find?
      (fun v => v.telegram_id == user.telegram_id)).isSome := by
    rw [List.find?_isSome]
    exact ⟨u, hm, by simp [ht]⟩
  cases hfe : db.users.find? (fun v => v.telegram_id == user.telegram_id) with
  | none => rw [hfe] at hf; simp at hf
  | some v => unfold create_user; rw [hfe]

/-- C8 (witness): duplicating `uA`'s `telegram_id` in the two-user store. -/
theorem create_user_conflict_witness :
    create_user ureqDup wdb =
      (.error (.httpException 400 "User already exists"), wdb) :=
  create_user_conflict ureqDup wdb ⟨uA, by decide, by decide⟩

/-- C9 (amended): for a token that parses as an integer, identity
resolution returns an existing user with that `telegram_id` or fails with
the 401 error; a token that does not parse raises `ValueError` (an
unhandled internal error), a third outcome the original claim excludes. -/
theorem get_current_user_outcomes (token : String) (db : DB) :
    (pyInt token = none →
      get_current_user token db = .error .valueError) ∧
    (∀ t : Int, pyInt token = some t →
      (∃ u, get_current_user token db = .ok u ∧ u ∈ db.users ∧
        u.telegram_id = t) ∨
      get_current_user token db = .error authError) := by
  constructor
  · intro h
    unfold get_current_user
    rw [h]
  · intro t h
    have hg : get_current_user token db =
        match db.users.find? (fun u => u.telegram_id == t) with
        | none => Except.error authError
        | some u => Except.ok u := by
      unfold get_current_user
      rw [h]
    rw [hg]
    cases hfe : db.users.find? (fun u => u.telegram_id == t) with
    | none => exact Or.inr rfl
    | some u =>
      exact Or.inl ⟨u, rfl, List.mem_of_find?_eq_some hfe,
        by simpa using List.find?_some hfe⟩

/-- C9 (witness): the numeric token "100" resolves against the two-user
store through the integer branch of the theorem. -/
theorem get_current_user_outcomes_witness :
    (∃ u, get_current_user "100" wdb = .ok u ∧ u ∈ wdb.users ∧
      u.telegram_id = 100) ∨
    get_current_user "100" wdb = .error authError :=
  (get_current_user_outcomes "100" wdb).2 100 (by decide)

/-- C9 (counterexample): the token "abc" makes `int(token)` raise
`ValueError`, an outcome that is neither a resolved user nor the 401
`Unauthenticated` error. -/
theorem get_current_user_valueError_cex :
    get_current_user "abc" wdb = .error .valueError ∧
    (Except.error .valueError : Except PyError UserDB) ≠
      .error authError := by
  decide

/-- C10: listing sets with the filter `exercise_id = 0` ignores the filter
(Python truthiness of `if exercise_id:`) and coincides with the unfiltered
listing. -/
theorem get_sets_zero_eq_none (current_user : Int) (db : DB) :
    get_sets (some 0) current_user db = get_sets none current_user db := rfl

/-- C2: creating a set fails with 404 "Exercise not found" and leaves the
store unchanged when no exercise with the payload's `exercise_id` is owned
by the caller; otherwise it succeeds and the persisted set's `user_id` is
the caller's identity. -/
theorem create_set_scoped (current_user : Int) (set_data : SetCreate)
    (db : DB) :
    ((∀ e ∈ db.exercises,
        ¬(e.id = set_data.exercise_id ∧ e.user_id = current_user)) →
      create_set set_data current_user db =
        (.error (.httpException 404 "Exercise not found"), db)) ∧
    ((∃ e ∈ db.exercises,
        e.id = set_data.exercise_id ∧ e.user_id = current_user) →
      ∃ s, (create_set set_data current_user db).1 = .ok s ∧
        s.user_id = current_user ∧
        (create_set set_data current_user db).2 =
          { db with sets := db.sets ++ [s] }) := by
  constructor
  · intro h
    have hf : db.exercises.find?
        (fun e => e.id == set_data.exercise_id && e.user_id == current_user)
        = none := by
      rw [List.find?_eq_none]
      intro e hm h2
      rw [Bool.and_eq_true, beq_iff_eq, beq_iff_eq] at h2
      exact h e hm h2
    unfold create_set
    rw [hf]
  · intro h
    obtain ⟨e, hm, hid, hu⟩ := h
    have hf : (db.exercises.find?
        (fun x => x.id == set_data.exercise_id &&
          x.user_id == current_user)).isSome := by
      rw [List.find?_isSome]
      exact ⟨e, hm, by simp [hid, hu]⟩
    cases hfe : db.exercises.find?
        (fun x => x.id == set_data.exercise_id &&
          x.user_id == current_user) with
    | none => rw [hfe] at hf; simp at hf
    | some e0 =>
      refine ⟨{ id := freshId (db.sets.map SetDB.id),
                user_id := current_user,
                exercise_id := set_data.exercise_id,
                weight := set_data.weight,
                reps := set_data.reps,
                set_number := set_data.set_number,
                date := set_data.date }, ?_, rfl, ?_⟩
      · unfold create_set
        rw [hfe]
      · unfold create_set
        rw [hfe]

/-- C2 (witness): creating a set under the caller's own exercise in the
two-user store succeeds with the caller's identity on the new row. -/
theorem create_set_scoped_witness :
    ∃ s, (create_set screq 1 wdb).1 = .ok s ∧ s.user_id = 1 ∧
      (create_set screq 1 wdb).2 = { wdb with sets := wdb.sets ++ [s] } :=
  (create_set_scoped 1 screq wdb).2 ⟨exA, by decide, by decide, by decide⟩

/-- C6 (amended): for every caller and every filter other than
`exercise_id = 0` (which Python truthiness turns into "no filter", see
C10), `get_sets` returns exactly the caller's sets matching the filter,
ordered by date descending (ties in unspecified order, realized here by a
concrete sort). -/
theorem get_sets_filter_exact (current_user : Int) (q : Option Int)
    (db : DB) (hq : q ≠ some 0) :
    List.Perm (get_sets q current_user db)
      (db.sets.filter (specSetsFilter q current_user)) ∧
    List.Sorted byDateDesc (get_sets q current_user db) := by
  constructor
  · have heq : setsQuery q current_user db =
        db.sets.filter (specSetsFilter q current_user) := by
      cases q with
      | none =>
        show db.sets.filter (fun s => s.user_id == current_user) = _
        apply List.filter_congr
        intro s _
        simp [specSetsFilter]
      | some k =>
        have hk : intOptTruthy (some k) = true := by
          simp only [intOptTruthy, bne_iff_ne]
          intro h2
          exact hq (by rw [h2])
        unfold setsQuery
        rw [if_pos hk, List.filter_filter]
        apply List.filter_congr
        intro s _
        simp [specSetsFilter, Bool.and_comm]
    exact heq ▸ List.perm_insertionSort byDateDesc
      (setsQuery q current_user db)
  · exact List.sorted_insertionSort byDateDesc
      (setsQuery q current_user db)

/-- C6 (witness): the filtered listing for exercise 1 by user 1 in the
two-user store, via the nonzero-filter branch. -/
theorem get_sets_filter_exact_witness :
    List.Perm (get_sets (some 1) 1 wdb)
      (wdb.sets.filter (specSetsFilter (some 1) 1)) ∧
    List.Sorted byDateDesc (get_sets (some 1) 1 wdb) :=
  get_sets_filter_exact 1 (some 1) wdb (by decide)

/-- C6 (counterexample): with the filter `exercise_id = 0` supplied, the
listing is not restricted to sets with `exercise_id = 0`: user 1's only
set has `exercise_id = 1` and is returned anyway. -/
theorem get_sets_zero_filter_cex :
    get_sets (some 0) 1 wdb = [sA] ∧ sA.exercise_id = 1 ∧
    wdb.sets.filter (fun s => s.user_id == 1 && s.exercise_id == 0)
      = [] := by
  decide

/-- C1: cross-user access is invisible: for distinct users a and b, a's get
on an exercise id all of whose rows are b's and a's delete on a set id all
of whose rows are b's fail with 404, a's listings contain none of b's rows,
and a's responses to get, list and delete are identical to those from a
store in which b's exercises and sets do not exist at all. -/
theorem cross_user_invisible (a b eid sid : Int) (db : DB) (hab : a ≠ b)
    (he : ∀ e ∈ db.exercises, e.id = eid → e.user_id = b)
    (hs : ∀ s ∈ db.sets, s.id = sid → s.user_id = b) :
    get_exercise eid a db =
      .error (.httpException 404 "Exercise not found") ∧
    delete_set sid a db =
      (.error (.httpException 404 "Set not found"), db) ∧
    (∀ e ∈ get_exercises a db, e.user_id ≠ b) ∧
    (∀ q, ∀ s ∈ get_sets q a db, s.user_id ≠ b) ∧
    get_exercise eid a db = get_exercise eid a (purgeUser b db) ∧
    get_exercises a db = get_exercises a (purgeUser b db) ∧
    (∀ q, get_sets q a db = get_sets q a (purgeUser b db)) ∧
    (delete_set sid a db).1 = (delete_set sid a (purgeUser b db)).1 := by
  have himpE : ∀ e : ExerciseDB, (e.id == eid && e.user_id == a) = true →
      (!(e.user_id == b)) = true := by
    intro e h2
    rw [Bool.and_eq_true, beq_iff_eq, beq_iff_eq] at h2
    simp [h2.2, hab]
  have himpS : ∀ s : SetDB, (s.id == sid && s.user_id == a) = true →
      (!(s.user_id == b)) = true := by
    intro s h2
    rw [Bool.and_eq_true, beq_iff_eq, beq_iff_eq] at h2
    simp [h2.2, hab]
  have himpUE : ∀ e : ExerciseDB, (e.user_id == a) = true →
      (!(e.user_id == b)) = true := by
    intro e h2
    rw [beq_iff_eq] at h2
    simp [h2, hab]
  have himpUS : ∀ s : SetDB, (s.user_id == a) = true →
      (!(s.user_id == b)) = true := by
    intro s h2
    rw [beq_iff_eq] at h2
    simp [h2, hab]
  have hpex : (purgeUser b db).exercises
      = db.exercises.filter (fun e => !(e.user_id == b)) := rfl
  have hpst : (purgeUser b db).sets
      = db.sets.filter (fun s => !(s.user_id == b)) := rfl
  have hfE : db.exercises.find? (fun e => e.id == eid && e.user_id == a)
      = none := by
    rw [List.find?_eq_none]
    intro e hm h2
    rw [Bool.and_eq_true, beq_iff_eq, beq_iff_eq] at h2
    exact hab (h2.2.symm.trans (he e hm h2.1))
  have hfS : db.sets.find? (fun s => s.id == sid && s.user_id == a)
      = none := by
    rw [List.find?_eq_none]
    intro s hm h2
    rw [Bool.and_eq_true, beq_iff_eq, beq_iff_eq] at h2
    exact hab (h2.2.symm.trans (hs s hm h2.1))
  refine ⟨?_, ?_, ?_, ?_, ?_, ?_, ?_, ?_⟩
  · unfold get_exercise
    rw [hfE]
  · unfold delete_set
    rw [hfS]
  · intro e hm
    simp only [get_exercises, List.mem_filter, beq_iff_eq] at hm
    rw [hm.2]
    exact hab
  · intro q s hm
    rw [(mem_get_sets hm).2]
    exact hab
  · unfold get_exercise
    rw [hpex, find?_filter_of_imp _ _ _ himpE]
  · unfold get_exercises
    rw [hpex, filter_filter_of_imp _ _ _ himpUE]
  · intro q
    unfold get_sets setsQuery
    rw [hpst, filter_filter_of_imp _ _ _ himpUS]
  · unfold delete_set
    rw [hpst, find?_filter_of_imp _ _ _ himpS]
    cases db.sets.find? (fun s => s.id == sid && s.user_id == a) <;> rfl

/-- C1 (witness): user 1 probing user 2's exercise id 2 in the two-user
store receives the 404 "Exercise not found" response. -/
theorem cross_user_invisible_witness :
    get_exercise 2 1 wdb =
      .error (.httpException 404 "Exercise not found") :=
  (cross_user_invisible 1 2 2 2 wdb (by decide) (by decide) (by decide)).1

/-- C4: deleting a set fails with 404 "Set not found" and changes nothing
exactly when the caller owns no set with that id; otherwise it succeeds
with an empty 204 body, and in a store without duplicate set ids that set
appears in no subsequent listing and a repeated delete fails with 404. -/
theorem delete_set_exact (current_user set_id : Int) (db : DB)
    (hnd : (db.sets.map SetDB.id).Nodup) :
    ((∀ s ∈ db.sets, ¬(s.id = set_id ∧ s.user_id = current_user)) →
      delete_set set_id current_user db =
        (.error (.httpException 404 "Set not found"), db)) ∧
    ((∃ s ∈ db.sets, s.id = set_id ∧ s.user_id = current_user) →
      (delete_set set_id current_user db).1 = .ok () ∧
      (∀ t ∈ get_sets none current_user
          (delete_set set_id current_user db).2, t.id ≠ set_id) ∧
      delete_set set_id current_user (delete_set set_id current_user db).2 =
        (.error (.httpException 404 "Set not found"),
          (delete_set set_id current_user db).2)) := by
  constructor
  · intro h
    have hf : db.sets.find?
        (fun s => s.id == set_id && s.user_id == current_user) = none := by
      rw [List.find?_eq_none]
      intro s hm h2
      rw [Bool.and_eq_true, beq_iff_eq, beq_iff_eq] at h2
      exact h s hm h2
    unfold delete_set
    rw [hf]
  · intro h
    obtain ⟨s, hm, hid, hu⟩ := h
    have hf : (db.sets.find?
        (fun x => x.id == set_id && x.user_id == current_user)).isSome := by
      rw [List.find?_isSome]
      exact ⟨s, hm, by simp [hid, hu]⟩
    cases hfe : db.sets.find?
        (fun x => x.id == set_id && x.user_id == current_user) with
    | none => rw [hfe] at hf; simp at hf
    | some s0 =>
      have hs0m : s0 ∈ db.sets := List.mem_of_find?_eq_some hfe
      have hs0p := List.find?_some hfe
      rw [Bool.and_eq_true, beq_iff_eq, beq_iff_eq] at hs0p
      have hres : delete_set set_id current_user db =
          (.ok (), { db with sets := db.sets.erase s0 }) := by
        unfold delete_set
        rw [hfe]
      have hkey : ∀ t ∈ db.sets.erase s0, t.id ≠ set_id := by
        intro t ht
        rw [← hs0p.1]
        exact erase_ne_id hnd hs0m t ht
      refine ⟨by rw [hres], ?_, ?_⟩
      · intro t htm
        rw [hres] at htm
        exact hkey t (mem_get_sets htm).1
      · rw [hres]
        have hf2 : (db.sets.erase s0).find?
            (fun x => x.id == set_id && x.user_id == current_user)
            = none := by
          rw [List.find?_eq_none]
          intro t ht h2
          rw [Bool.and_eq_true, beq_iff_eq, beq_iff_eq] at h2
          exact hkey t ht h2.1
        simp only [delete_set]
        rw [hf2]

/-- C4 (witness): deleting set 1, owned by user 1, from the two-user store
succeeds with an empty body. -/
theorem delete_set_exact_witness :
    (delete_set 1 1 wdb).1 = .ok () :=
  ((delete_set_exact 1 1 wdb (by decide)).2
    ⟨sA, by decide, by decide, by decide⟩).1

end GymmyBot
